import Mathlib

/-!
Verification development for the LibyaIntel alert dispatcher
(`backend/runner/alerts/deliver.py`).

The Python source is shallowly embedded below: pure helper functions become
Lean functions on `String`/`List Char`/`Nat`; the delivery table, the cursor
table and the admin-notification cooldown file become explicit state values
threaded through the operations; SQL statements are embedded as list
filters/sorts over row structures.  Timestamps are modelled as `Nat`
(seconds); `Option` models SQL `NULL` and Python `None`.
-/

namespace LibyaIntel

/-! ## Basic character/list utilities (ASCII fragment of the Python string ops) -/

/-- Python `str.lower` / SQL `lower`, modelled on the ASCII range
(`Char.toLower` lowercases exactly `A`-`Z`; all inputs exercised here are
ASCII apart from punctuation, which both sides leave unchanged). -/
def pyLower (s : String) : String :=
  String.mk (s.data.map Char.toLower)

/-- Python `str.isalnum`, modelled on the ASCII range (letters and digits). -/
def pyIsAlnum (c : Char) : Bool :=
  c.isAlphanum

/-- Python whitespace test used by `str.strip` / `str.split`
(space, tab, carriage return, newline). -/
def pyIsSpace (c : Char) : Bool :=
  c == ' ' || c == '\t' || c == '\r' || c == '\n'

/-- Python string slicing `s[:n]` (by characters/code points). -/
def pyTake (s : String) (n : Nat) : String :=
  String.mk (s.data.take n)

/-- Strip characters satisfying `p` from the front and back of a list. -/
def stripWhile (p : Char → Bool) (l : List Char) : List Char :=
  ((l.dropWhile p).reverse.dropWhile p).reverse

/-- Python `str.strip()` (whitespace strip, ASCII fragment). -/
def pyStrip (s : String) : String :=
  String.mk (stripWhile pyIsSpace s.data)

/-- `needle.isPrefixOf hay` at every suffix: substring containment on char
lists (the semantics of SQL `col LIKE concat-of-percent-query-percent` for a
query without LIKE metacharacters, and of Python `in`). -/
def containsSub (needle : List Char) : List Char → Bool
  | [] => needle.isEmpty
  | c :: rest => needle.isPrefixOf (c :: rest) || containsSub needle rest

/-- Case-insensitive substring test: SQL `hay ILIKE '%' || needle || '%'`. -/
def containsCI (hay needle : String) : Bool :=
  containsSub (pyLower needle).data (pyLower hay).data

/-- Split a char list at the first occurrence of `sep`;
`none` when `sep` does not occur (Python `str.find` / `str.split(sep, 1)`). -/
def splitFirstChar (sep : Char) : List Char → Option (List Char × List Char)
  | [] => none
  | c :: rest =>
    if c == sep then some ([], rest)
    else (splitFirstChar sep rest).map (fun pr => (c :: pr.1, pr.2))

/-- Split a char list at the last occurrence of `sep`
(Python `str.rsplit(sep, 1)`); `none` when `sep` does not occur. -/
def splitLastChar (sep : Char) (l : List Char) : Option (List Char × List Char) :=
  match splitFirstChar sep l.reverse with
  | none => none
  | some (rv, rh) => some (rh.reverse, rv.reverse)

/-- Split on every occurrence of `sep` (Python `str.split(sep)`). -/
def splitOnChar (sep : Char) : List Char → List (List Char)
  | [] => [[]]
  | c :: rest =>
    match splitOnChar sep rest with
    | [] => if c == sep then [[], []] else [[c]]
    | cur :: more => if c == sep then [] :: cur :: more else (c :: cur) :: more

/-- Python `s.rstrip(ch)` for a single strip character. -/
def rstripChar (ch : Char) (l : List Char) : List Char :=
  (l.reverse.dropWhile (fun c => c == ch)).reverse

/-! ## `normalize_title` and `compute_dedupe_key` -/

/-- The character loop of `normalize_title`: keep alphanumerics, replace each
run of non-alphanumerics by a single space (the `last_space` flag in the
source). -/
def normalizeTitleScan : List Char → Bool → List Char
  | [], _ => []
  | c :: rest, lastSpace =>
    if pyIsAlnum c then c :: normalizeTitleScan rest false
    else if lastSpace then normalizeTitleScan rest true
    else ' ' :: normalizeTitleScan rest true

/-- Join word chunks with single spaces (Python `" ".join(words)`). -/
def joinSpace : List (List Char) → List Char
  | [] => []
  | [w] => w
  | w :: rest => w ++ ' ' :: joinSpace rest

/-- `normalize_title(raw)`: lowercase, collapse non-alphanumeric runs to a
single space, then rejoin the whitespace-split words with single spaces
(which trims the ends; the scan output contains no whitespace other than the
inserted single spaces, so splitting on the space character is exact). -/
def normalize_title (raw : String) : String :=
  let cleaned := normalizeTitleScan (pyLower raw).data false
  String.mk (joinSpace ((splitOnChar ' ' cleaned).filter (fun w => ¬ w.isEmpty)))

/-- A Python `datetime`/`date` value, reduced to the calendar-date fields the
dedupe key uses (`str(ts.date())`). -/
structure PyDate where
  year : Nat
  month : Nat
  day : Nat
deriving DecidableEq

def padTo (width : Nat) (n : Nat) : String :=
  let s := toString n
  String.mk (List.replicate (width - s.length) '0') ++ s

/-- `str(ts.date())`: ISO `YYYY-MM-DD`. -/
def pyDateStr (d : PyDate) : String :=
  padTo 4 d.year ++ "-" ++ padTo 2 d.month ++ "-" ++ padTo 2 d.day

/-- Python truthiness chaining for optional strings:
`x or y` skips `None` and the empty string. -/
def truthyStr (o : Option String) : Option String :=
  match o with
  | none => none
  | some s => if s.isEmpty then none else some s

/-- The dictionary passed to `compute_dedupe_key` (a matcher row or any item
carrying these keys). -/
structure DedupeItem where
  id : Nat
  url : Option String
  title : Option String
  sourceName : Option String
  source : Option String
  ts : Option PyDate
  publishedAt : Option PyDate
  createdAt : Option PyDate

/-! ## `urllib.parse` fragment used by `normalize_url`

`urlsplit`, `parse_qsl(keep_blank_values=True)`, `urlencode`, `urlunsplit`
as in CPython.  Percent-coding is modelled bytewise (UTF-8 on encode, one
char per byte on decode); every input exercised by a theorem below is ASCII,
where this coincides with CPython. -/

/-- Characters CPython removes anywhere in the URL before splitting. -/
def unsafeUrlByte (c : Char) : Bool :=
  c == '\t' || c == '\r' || c == '\n'

/-- C0 controls and space, stripped from both ends by `urlsplit`. -/
def c0ControlOrSpace (c : Char) : Bool :=
  c.toNat ≤ 32

/-- Characters allowed in a URL scheme after the first (letters, digits,
plus, minus, dot). -/
def schemeChar (c : Char) : Bool :=
  c.isAlphanum || c == '+' || c == '-' || c == '.'

structure SplitResult where
  scheme : List Char
  netloc : List Char
  path : List Char
  query : List Char
  fragment : List Char

/-- `urlsplit(url)`.  Returns `none` where CPython raises `ValueError`
(mismatched brackets in the network location; the inner IPv6 validation of
well-bracketed hosts is not modelled — no bracketed host appears in any
input below). -/
def pyUrlsplit (url : String) : Option SplitResult :=
  let u := stripWhile c0ControlOrSpace (url.data.filter (fun c => ¬ unsafeUrlByte c))
  -- scheme: text before the first colon, if nonempty, starting with an
  -- ASCII letter and made of scheme characters only
  let (scheme, rest) :=
    match splitFirstChar ':' u with
    | some (before, after) =>
      match before with
      | [] => (([] : List Char), u)
      | c0 :: cs =>
        if c0.isAlpha && (c0 :: cs).all schemeChar then
          ((c0 :: cs).map Char.toLower, after)
        else ([], u)
    | none => ([], u)
  -- netloc: after a leading double slash, up to the next slash, question
  -- mark or hash
  let (netloc, rest2) :=
    match rest with
    | '/' :: '/' :: tail =>
      (tail.takeWhile (fun c => ¬ (c == '/' || c == '?' || c == '#')),
       tail.dropWhile (fun c => ¬ (c == '/' || c == '?' || c == '#')))
    | _ => ([], rest)
  if (netloc.contains '[' && ¬ netloc.contains ']')
      || (netloc.contains ']' && ¬ netloc.contains '[') then
    none
  else
    let (rest3, fragment) :=
      match splitFirstChar '#' rest2 with
      | some (before, after) => (before, after)
      | none => (rest2, [])
    let (path, query) :=
      match splitFirstChar '?' rest3 with
      | some (before, after) => (before, after)
      | none => (rest3, [])
    some ⟨scheme, netloc, path, query, fragment⟩

def hexVal (c : Char) : Option Nat :=
  if c.isDigit then some (c.toNat - 48)
  else if 'a' ≤ c && c ≤ 'f' then some (c.toNat - 87)
  else if 'A' ≤ c && c ≤ 'F' then some (c.toNat - 55)
  else none

/-- `unquote_plus`: plus to space, then percent-decoding; an invalid escape
is left literal.  (Decoding is per byte; ASCII-exact.) -/
def pctDecodePlus : List Char → List Char
  | [] => []
  | '%' :: a :: b :: rest =>
    match hexVal a, hexVal b with
    | some x, some y => Char.ofNat (16 * x + y) :: pctDecodePlus rest
    | _, _ => '%' :: pctDecodePlus (a :: b :: rest)
  | '+' :: rest => ' ' :: pctDecodePlus rest
  | c :: rest => c :: pctDecodePlus rest

/-- `parse_qsl(qs, keep_blank_values=True)`: split the query on ampersands,
drop empty chunks, split each chunk at the first equals sign (missing value
becomes empty), unquote names and values. -/
def pyParseQsl (qs : List Char) : List (String × String) :=
  (splitOnChar '&' qs).filterMap (fun nv =>
    if nv.isEmpty then none
    else
      let (n, v) :=
        match splitFirstChar '=' nv with
        | some (n, v) => (n, v)
        | none => (nv, [])
      some (String.mk (pctDecodePlus n), String.mk (pctDecodePlus v)))

/-- The characters `quote` never escapes (letters, digits, underscore, dot,
minus, tilde). -/
def alwaysSafe (c : Char) : Bool :=
  c.isAlphanum || c == '_' || c == '.' || c == '-' || c == '~'

def hexDigitUpper (n : Nat) : Char :=
  if n < 10 then Char.ofNat (48 + n) else Char.ofNat (55 + n)

/-- UTF-8 bytes of a character. -/
def utf8Bytes (c : Char) : List Nat :=
  let n := c.toNat
  if n < 128 then [n]
  else if n < 2048 then [192 + n / 64, 128 + n % 64]
  else if n < 65536 then [224 + n / 4096, 128 + (n / 64) % 64, 128 + n % 64]
  else [240 + n / 262144, 128 + (n / 4096) % 64, 128 + (n / 64) % 64, 128 + n % 64]

/-- `quote_plus(s)`: safe characters kept, space becomes plus, everything
else percent-encoded per UTF-8 byte with uppercase hex. -/
def pyQuotePlus (s : String) : List Char :=
  (s.data.map (fun c =>
    if alwaysSafe c then [c]
    else if c == ' ' then ['+']
    else (utf8Bytes c).map (fun b => ['%', hexDigitUpper (b / 16), hexDigitUpper (b % 16)]) |>.flatten)).flatten

/-- Join chunks with a single separator character. -/
def joinChar (sep : Char) : List (List Char) → List Char
  | [] => []
  | [w] => w
  | w :: rest => w ++ sep :: joinChar sep rest

/-- `urlencode(pairs)` for string pairs: quote-plus each side, join with
equals and ampersand. -/
def pyUrlencode (pairs : List (String × String)) : List Char :=
  joinChar '&' (pairs.map (fun kv => pyQuotePlus kv.1 ++ '=' :: pyQuotePlus kv.2))

/-- `urlunsplit((scheme, netloc, path, query, fragment))`. -/
def pyUrlunsplit (scheme netloc path query fragment : List Char) : List Char :=
  let url := path
  let url :=
    if ¬ netloc.isEmpty || (match url with | '/' :: '/' :: _ => true | _ => false) then
      let url2 := if ¬ url.isEmpty && (match url with | '/' :: _ => false | _ => true)
                  then '/' :: url else url
      '/' :: '/' :: netloc ++ url2
    else url
  let url := if ¬ scheme.isEmpty then scheme ++ ':' :: url else url
  let url := if ¬ query.isEmpty then url ++ '?' :: query else url
  if ¬ fragment.isEmpty then url ++ '#' :: fragment else url

/-- Python tuple comparison on string pairs (code-point lexicographic on the
first component, then the second); the order used by `filtered.sort()`. -/
def pairLe (a b : String × String) : Prop :=
  a.1 < b.1 ∨ (a.1 = b.1 ∧ (a.2 < b.2 ∨ a.2 = b.2))

instance : DecidableRel pairLe := fun a b => by
  unfold pairLe; infer_instance

/-- A tracking query parameter dropped by `normalize_url`: the lowercased
name starts with the four characters of the UTM marker, or is a click
identifier. -/
def isTrackingParam (k : String) : Bool :=
  let lk := (pyLower k).data
  (['u', 't', 'm', '_'] : List Char).isPrefixOf lk
    || lk == ['f', 'b', 'c', 'l', 'i', 'd'] || lk == ['g', 'c', 'l', 'i', 'd']

/-- `normalize_url(raw)`: strip, split, lowercase scheme (defaulting to
`http`) and host, drop a default port, strip trailing slashes from the path,
drop tracking parameters, sort the remaining query pairs, reassemble.  The
exception path of the source returns the stripped input unchanged. -/
def normalize_url (raw : String) : String :=
  let raw := pyStrip raw
  if raw.isEmpty then String.mk []
  else
    match pyUrlsplit raw with
    | none => raw
    | some parts =>
      let scheme := if parts.scheme.isEmpty then ['h', 't', 't', 'p'] else parts.scheme
      let netloc := parts.netloc.map Char.toLower
      let netloc :=
        match splitLastChar ':' netloc with
        | some (host, port) =>
          if (scheme == ['h', 't', 't', 'p'] && port == ['8', '0'])
              || (scheme == ['h', 't', 't', 'p', 's'] && port == ['4', '4', '3'])
          then host else netloc
        | none => netloc
      let path := rstripChar '/' parts.path
      let qs := pyParseQsl parts.query
      let filtered := qs.filter (fun kv => ¬ isTrackingParam kv.1)
      let sorted := List.insertionSort pairLe filtered
      let query := pyUrlencode sorted
      String.mk (pyUrlunsplit scheme netloc path query [])

/-- `compute_dedupe_key(item)`: a normalized URL when one exists (the key and
the stored `normalized_url` coincide); else lowercased source, normalized
title and as-of date joined with bars, dropping empty parts; else an
`unknown:` key from the article id.  Second component is the stored
`normalized_url` (empty for URL-less items). -/
def compute_dedupe_key (item : DedupeItem) : String × String :=
  let url := normalize_url (item.url.getD (String.mk []))
  if ¬ url.isEmpty then (url, url)
  else
    let source := pyLower (pyStrip (((truthyStr item.sourceName).orElse
      (fun _ => truthyStr item.source)).getD (String.mk [])))
    let title := normalize_title (item.title.getD (String.mk []))
    let ts := ((item.ts).orElse (fun _ => item.publishedAt)).orElse (fun _ => item.createdAt)
    let day := match ts with
      | some d => pyDateStr d
      | none => String.mk []
    let parts := [source, title, day].filter (fun p => ¬ p.isEmpty)
    let key := if parts.isEmpty then String.append ("unknown:") (toString item.id)
               else String.intercalate ("|") parts
    (key, String.mk [])

/-! ## The Matcher: `pick_search_sql`

The generated SQL is embedded as a predicate over article rows plus an
ordering, applied to a catalog list.  Schema introspection (`has_column`,
`has_table`) becomes a record of flags; a column that does not exist simply
contributes no clause, exactly as in the SQL generator.  The ranked
full-text machinery (`search_tsv`, `websearch_to_tsquery`, `ts_rank_cd`)
lives in the database, outside this repository, so its match predicate and
rank are oracle parameters. -/

structure SearchSchema where
  hasSearchTsv : Bool
  hasSummary : Bool
  hasContentClean : Bool
  hasContent : Bool
  hasTranslatedContent : Bool
  hasCategoryGuess : Bool
  hasCategory : Bool
  hasSourceId : Bool
  hasSource : Bool
  hasSourceName : Bool
  hasSourcesTable : Bool

/-- One row of `public.articles`, together with the `sources.name` value the
left join would produce.  `Option` is SQL `NULL`; `ts` is the value of the
chosen timestamp expression (`COALESCE(published_at, created_at)` or
`created_at`). -/
structure ArticleRow where
  id : Nat
  title : Option String
  url : Option String
  summary : Option String
  contentClean : Option String
  content : Option String
  translatedContent : Option String
  categoryGuess : Option String
  category : Option String
  sourceId : Option String
  source : Option String
  sourceName : Option String
  joinedSourceName : Option String
  ts : Nat
deriving DecidableEq

/-- The bound parameters of the search query, as built in `run_once`:
the stripped query, its presence flag, the category and source filters
(empty strings already nulled out by `NULLIF`), the lower bound of the
window (`COALESCE(start_ts, now() - days)` precomputed) and the row limit. -/
structure SearchParams where
  q : String
  qPresent : Bool
  category : Option String
  source : Option String
  windowStart : Nat
  limit : Nat

/-- `SearchParams` as `run_once` builds them from an alert row:
`q = query.strip()`, `q_present = bool(q)`. -/
def mkSearchParams (query : String) (category source : Option String)
    (windowStart limit : Nat) : SearchParams :=
  let q := pyStrip query
  { q := q, qPresent := ¬ q.isEmpty, category := category, source := source,
    windowStart := windowStart, limit := limit }

/-- The text columns collected into `search_cols` by `pick_search_sql`:
summary, cleaned content, content, translated content — each only when the
column exists.  The title is never included. -/
def searchCols (sch : SearchSchema) (a : ArticleRow) : List (Option String) :=
  (if sch.hasSummary then [a.summary] else [])
    ++ (if sch.hasContentClean then [a.contentClean] else [])
    ++ (if sch.hasContent then [a.content] else [])
    ++ (if sch.hasTranslatedContent then [a.translatedContent] else [])

/-- `col ILIKE '%' || q || '%'` with SQL NULL semantics: a NULL column never
matches. -/
def ilikeContains (col : Option String) (q : String) : Bool :=
  match col with
  | none => false
  | some s => containsCI s q

/-- The `where_q` disjunction of the non-`search_tsv` branch: an OR of ILIKE
tests over the existing text columns, or `TRUE` when no such column exists. -/
def whereQNoTsv (sch : SearchSchema) (q : String) (a : ArticleRow) : Bool :=
  let cols := searchCols sch a
  if cols.isEmpty then true else cols.any (fun c => ilikeContains c q)

/-- The category clause: when a category filter is bound, compare it for
equality against `category_guess` if that column exists, else `category`,
else the clause degenerates to `TRUE`. -/
def categoryClause (sch : SearchSchema) (cat : Option String) (a : ArticleRow) : Bool :=
  match cat with
  | none => true
  | some c =>
    if sch.hasCategoryGuess then a.categoryGuess == some c
    else if sch.hasCategory then a.category == some c
    else true

/-- The source clause: when a source filter is bound, an OR of ILIKE
substring tests over the existing source columns (and the joined
`sources.name`), or `TRUE` when none exists. -/
def sourceClause (sch : SearchSchema) (src : Option String) (a : ArticleRow) : Bool :=
  match src with
  | none => true
  | some s =>
    let fs :=
      (if sch.hasSourceName then [ilikeContains a.sourceName s] else [])
        ++ (if sch.hasSource then [ilikeContains a.source s] else [])
        ++ (if sch.hasSourceId then [ilikeContains a.sourceId s] else [])
        ++ (if sch.hasSourcesTable && sch.hasSourceId
            then [ilikeContains a.joinedSourceName s] else [])
    if fs.isEmpty then true else fs.any id

/-- The full WHERE clause of `pick_search_sql` for one row: inside the
window, AND (`q_present = false` OR the query clause — full-text oracle when
`search_tsv` exists, else the ILIKE disjunction), AND the category clause,
AND the source clause. -/
def matchRow (sch : SearchSchema) (tsvMatch : ArticleRow → Bool)
    (p : SearchParams) (a : ArticleRow) : Bool :=
  decide (p.windowStart ≤ a.ts)
    && (¬ p.qPresent || (if sch.hasSearchTsv then tsvMatch a else whereQNoTsv sch p.q a))
    && categoryClause sch p.category a
    && sourceClause sch p.source a

/-- The ORDER BY of `pick_search_sql`: rank descending then timestamp
descending when `search_tsv` exists, else timestamp descending alone. -/
def searchOrder (sch : SearchSchema) (rank : ArticleRow → Nat)
    (a b : ArticleRow) : Prop :=
  if sch.hasSearchTsv then rank b < rank a ∨ (rank a = rank b ∧ b.ts ≤ a.ts)
  else b.ts ≤ a.ts

instance (sch : SearchSchema) (rank : ArticleRow → Nat) :
    DecidableRel (searchOrder sch rank) := fun a b => by
  unfold searchOrder; infer_instance

instance (sch : SearchSchema) (rank : ArticleRow → Nat) :
    IsTotal ArticleRow (searchOrder sch rank) := by
  constructor
  intro a b
  unfold searchOrder
  by_cases h : sch.hasSearchTsv = true
  · simp only [h, if_pos]
    rcases Nat.lt_trichotomy (rank a) (rank b) with hlt | heq | hgt
    · exact Or.inr (Or.inl hlt)
    · rcases Nat.le_total b.ts a.ts with hts | hts
      · exact Or.inl (Or.inr ⟨heq, hts⟩)
      · exact Or.inr (Or.inr ⟨heq.symm, hts⟩)
    · exact Or.inl (Or.inl hgt)
  · simp only [eq_false_of_ne_true h, if_neg, Bool.false_eq_true, not_false_iff]
    exact Nat.le_total b.ts a.ts

instance (sch : SearchSchema) (rank : ArticleRow → Nat) :
    IsTrans ArticleRow (searchOrder sch rank) := by
  constructor
  intro a b c hab hbc
  unfold searchOrder at hab hbc ⊢
  by_cases h : sch.hasSearchTsv = true
  · rw [if_pos h] at hab hbc ⊢
    rcases hab with hab | ⟨hab1, hab2⟩
    · rcases hbc with hbc | ⟨hbc1, hbc2⟩
      · exact Or.inl (hbc.trans hab)
      · exact Or.inl (hbc1 ▸ hab)
    · rcases hbc with hbc | ⟨hbc1, hbc2⟩
      · exact Or.inl (hab1 ▸ hbc)
      · exact Or.inr ⟨hab1.trans hbc1, hbc2.trans hab2⟩
  · rw [if_neg h] at hab hbc ⊢
    exact hbc.trans hab

/-- The Matcher: filter the catalog by the WHERE clause, sort by the ORDER
BY, truncate to the LIMIT. -/
def pickSearch (sch : SearchSchema) (tsvMatch : ArticleRow → Bool)
    (rank : ArticleRow → Nat) (p : SearchParams)
    (catalog : List ArticleRow) : List ArticleRow :=
  (List.insertionSort (searchOrder sch rank)
    (catalog.filter (matchRow sch tsvMatch p))).take p.limit

/-- The predicate claim C1 describes, stated from the claim's own words
(for comparison against the embedded SQL): the query, when present, must
occur as a case-insensitive substring of the title, summary or content,
restricted to the columns that exist (the title always exists in the data
model), together with the window, category and source conditions. -/
def claimC1Match (sch : SearchSchema) (p : SearchParams) (a : ArticleRow) : Bool :=
  decide (p.windowStart ≤ a.ts)
    && (¬ p.qPresent
        || (ilikeContains a.title p.q
            || (searchCols sch a).any (fun c => ilikeContains c p.q)))
    && categoryClause sch p.category a
    && sourceClause sch p.source a

/-- A catalog schema exposing only the summary text column, no ranked
full-text capability. -/
def summaryOnlySchema : SearchSchema :=
  { hasSearchTsv := false, hasSummary := true, hasContentClean := false,
    hasContent := false, hasTranslatedContent := false,
    hasCategoryGuess := false, hasCategory := false, hasSourceId := false,
    hasSource := false, hasSourceName := false, hasSourcesTable := false }

/-- An article whose title contains the query but whose summary does not. -/
def titleHitArticle : ArticleRow :=
  { id := 1, title := some ("Oil output rises"), url := none,
    summary := some ("a report on production"), contentClean := none,
    content := none, translatedContent := none, categoryGuess := none,
    category := none, sourceId := none, source := none, sourceName := none,
    joinedSourceName := none, ts := 100 }

/-- C1 is false as stated: with no `search_tsv` column, an in-window article
whose title contains the query (case-insensitively) but whose summary does
not is NOT returned by the Matcher, although the claim's predicate — which
includes the title among the searched columns — accepts it.  The ILIKE
fallback of `pick_search_sql` never searches the title. -/
theorem matcher_ignores_title_counterexample :
    claimC1Match summaryOnlySchema
        (mkSearchParams ("oil") none none 0 10) titleHitArticle = true
      ∧ pickSearch summaryOnlySchema (fun _ => false) (fun _ => 0)
          (mkSearchParams ("oil") none none 0 10) [titleHitArticle] = [] := by
  refine ⟨by decide, by decide⟩

/-- The amended C1 predicate: with no ranked full-text capability, a
non-empty query must occur as a case-insensitive substring of one of the
existing long-text columns — summary, cleaned content, content or translated
content; the title is not searched, and when none of those columns exists
the query condition is vacuously satisfied.  Window, category-equality and
source-substring conditions as in the claim. -/
def amendedC1Prop (sch : SearchSchema) (p : SearchParams) (a : ArticleRow) : Prop :=
  p.windowStart ≤ a.ts
    ∧ (p.qPresent = true →
        (searchCols sch a = [] ∨ ∃ c ∈ searchCols sch a, ilikeContains c p.q = true))
    ∧ categoryClause sch p.category a = true
    ∧ sourceClause sch p.source a = true

theorem whereQNoTsv_eq_true_iff (sch : SearchSchema) (q : String) (a : ArticleRow) :
    whereQNoTsv sch q a = true
      ↔ (searchCols sch a = [] ∨ ∃ c ∈ searchCols sch a, ilikeContains c q = true) := by
  unfold whereQNoTsv
  by_cases h : (searchCols sch a).isEmpty
  · rw [if_pos h]
    simp [List.isEmpty_iff.mp h]
  · rw [if_neg h]
    rw [List.any_eq_true]
    constructor
    · intro hex
      exact Or.inr hex
    · intro hor
      rcases hor with hnil | hex
      · exact absurd (List.isEmpty_iff.mpr hnil) h
      · exact hex

theorem matchRow_eq_true_iff (sch : SearchSchema) (tsvMatch : ArticleRow → Bool)
    (p : SearchParams) (a : ArticleRow) (hts : sch.hasSearchTsv = false) :
    matchRow sch tsvMatch p a = true ↔ amendedC1Prop sch p a := by
  unfold matchRow amendedC1Prop
  rw [hts]
  cases hqp : p.qPresent with
  | false => simp [hqp, whereQNoTsv_eq_true_iff, and_assoc]
  | true => simp [hqp, whereQNoTsv_eq_true_iff, and_assoc]

/-- C1 amended: with no ranked full-text capability and the due-row count
within the result ceiling, the Matcher returns exactly the in-window
articles for which the (stripped) query — when non-empty — occurs as a
case-insensitive substring of an existing long-text column (summary, cleaned
content, content, translated content; never the title, and vacuously when no
such column exists), that satisfy the category filter if set and the source
substring filter if set; an empty query matches every article in the window. -/
theorem matcher_membership_no_tsv (sch : SearchSchema) (tsvMatch : ArticleRow → Bool)
    (rank : ArticleRow → Nat) (p : SearchParams) (catalog : List ArticleRow)
    (hts : sch.hasSearchTsv = false)
    (hlim : (catalog.filter (matchRow sch tsvMatch p)).length ≤ p.limit)
    (a : ArticleRow) :
    a ∈ pickSearch sch tsvMatch rank p catalog ↔ a ∈ catalog ∧ amendedC1Prop sch p a := by
  unfold pickSearch
  have hperm := List.perm_insertionSort (searchOrder sch rank)
    (catalog.filter (matchRow sch tsvMatch p))
  rw [List.take_of_length_le (hperm.length_eq.trans_le hlim)]
  rw [hperm.mem_iff, List.mem_filter, matchRow_eq_true_iff sch tsvMatch p a hts]

theorem matcher_membership_no_tsv_witness :
    titleHitArticle ∈ pickSearch summaryOnlySchema (fun _ => false) (fun _ => 0)
        (mkSearchParams ("") none none 0 10) [titleHitArticle]
      ↔ titleHitArticle ∈ [titleHitArticle]
          ∧ amendedC1Prop summaryOnlySchema
              (mkSearchParams ("") none none 0 10) titleHitArticle :=
  matcher_membership_no_tsv summaryOnlySchema (fun _ => false) (fun _ => 0)
    (mkSearchParams ("") none none 0 10) [titleHitArticle] rfl (by decide)
    titleHitArticle

/-- A catalog schema exposing the ranked full-text column (alongside the
summary column, as in the full production schema). -/
def tsvSchema : SearchSchema :=
  { hasSearchTsv := true, hasSummary := true, hasContentClean := false,
    hasContent := false, hasTranslatedContent := false,
    hasCategoryGuess := false, hasCategory := false, hasSourceId := false,
    hasSource := false, hasSourceName := false, hasSourcesTable := false }

/-- Number of (possibly overlapping) occurrences of `needle` in a char
list. -/
def countSub (needle : List Char) : List Char → Nat
  | [] => 0
  | c :: rest => (if needle.isPrefixOf (c :: rest) then 1 else 0) + countSub needle rest

/-- A rank oracle of the shape `ts_rank_cd` produces for a NON-EMPTY query:
cover-density ranking grows with the number of query-term occurrences in the
document, so a row whose text mentions the query terms more often receives a
strictly higher rank.  Here the rank is the occurrence count of the
lowercased query in the row's summary text — an ordering the real
`ts_rank_cd(search_tsv, websearch_to_tsquery('english', q))` genuinely
realizes when the summaries feed the `search_tsv` vector. -/
def termFrequencyRank (q : String) (a : ArticleRow) : Nat :=
  countSub (pyLower q).data (pyLower (a.summary.getD (String.mk []))).data

/-- The newer of the two matching articles: published at 10, one mention of
the query term. -/
def newerLowRankArticle : ArticleRow :=
  { id := 1, title := some ("Oil found"), url := none,
    summary := some ("oil found offshore"), contentClean := none,
    content := none, translatedContent := none, categoryGuess := none,
    category := none, sourceId := none, source := none, sourceName := none,
    joinedSourceName := none, ts := 10 }

/-- The older of the two matching articles: published at 5, three mentions
of the query term, hence the higher full-text rank. -/
def olderHighRankArticle : ArticleRow :=
  { id := 2, title := some ("Oil, oil, oil"), url := none,
    summary := some ("oil exports and oil output: oil everywhere"),
    contentClean := none, content := none, translatedContent := none,
    categoryGuess := none, category := none, sourceId := none, source := none,
    sourceName := none, joinedSourceName := none, ts := 5 }

/-- C6 is false as stated: when the catalog has a `search_tsv` column and
the query is non-empty, the ORDER BY puts the full-text rank first, so an
older article that mentions the query terms more often — and therefore
carries a strictly higher cover-density rank — is returned ahead of a newer
one: the output is not sorted by each match's own as-of timestamp.  Both
rows match the full-text predicate (their texts contain the query term), and
the rank oracle is the occurrence-count ordering `ts_rank_cd` produces on
these rows. -/
theorem matcher_rank_order_counterexample :
    pickSearch tsvSchema (fun _ => true) (termFrequencyRank ("oil"))
        (mkSearchParams ("oil") none none 0 10)
        [newerLowRankArticle, olderHighRankArticle]
      = [olderHighRankArticle, newerLowRankArticle]
      ∧ olderHighRankArticle.ts < newerLowRankArticle.ts
      ∧ termFrequencyRank ("oil") newerLowRankArticle = 1
      ∧ termFrequencyRank ("oil") olderHighRankArticle = 3 := by
  refine ⟨by decide, by decide, by decide, by decide⟩

/-- C6 amended: when the catalog has no `search_tsv` column the Matcher
returns its matches in recency-descending order — sorted by each match's own
as-of timestamp, newest first.  (With `search_tsv` the order is primarily by
full-text rank descending, ties broken newest-first.) -/
theorem matcher_sorted_by_ts_desc (sch : SearchSchema) (tsvMatch : ArticleRow → Bool)
    (rank : ArticleRow → Nat) (p : SearchParams) (catalog : List ArticleRow)
    (hts : sch.hasSearchTsv = false) :
    List.Sorted (fun a b : ArticleRow => b.ts ≤ a.ts)
      (pickSearch sch tsvMatch rank p catalog) := by
  unfold pickSearch
  have hsorted := List.sorted_insertionSort (searchOrder sch rank)
    (catalog.filter (matchRow sch tsvMatch p))
  have himp : List.Sorted (fun a b : ArticleRow => b.ts ≤ a.ts)
      (List.insertionSort (searchOrder sch rank)
        (catalog.filter (matchRow sch tsvMatch p))) := by
    refine hsorted.imp ?_
    intro a b hab
    unfold searchOrder at hab
    rw [hts] at hab
    simpa using hab
  exact himp.sublist (List.take_sublist _ _)

theorem matcher_sorted_by_ts_desc_witness :
    List.Sorted (fun a b : ArticleRow => b.ts ≤ a.ts)
      (pickSearch summaryOnlySchema (fun _ => false) (fun _ => 0)
        (mkSearchParams ("") none none 0 10)
        [olderHighRankArticle, newerLowRankArticle]) :=
  matcher_sorted_by_ts_desc summaryOnlySchema (fun _ => false) (fun _ => 0)
    (mkSearchParams ("") none none 0 10)
    [olderHighRankArticle, newerLowRankArticle] rfl

/-- C7: for a match with no URL, title `BREAKING: Oil Output Rises — Reuters!!`,
source `Reuters` and an as-of timestamp on 2024-05-01, the dedupe key deriver
returns exactly `reuters|breaking oil output rises reuters|2024-05-01`
(lowercased source, title with non-alphanumeric runs collapsed to single
spaces and trimmed, and the as-of date, joined with bars) and an empty
normalized URL. -/
theorem dedupe_key_title_fallback_example :
    compute_dedupe_key
      { id := 1, url := none,
        title := some ("BREAKING: Oil Output Rises — Reuters!!"),
        sourceName := some ("Reuters"), source := none,
        ts := some ⟨2024, 5, 1⟩, publishedAt := none, createdAt := none }
      = (("reuters|breaking oil output rises reuters|2024-05-01"), ("")) := by
  decide

/-- C8 (code bug): URL normalization is not idempotent on its own output.
On `https://x:443:443` one application yields `https://x:443` and a second
application strips the now-exposed default port again, yielding `https://x`,
contradicting the specified idempotence. -/
theorem normalize_url_not_idempotent_on_port_chain :
    normalize_url ("https://x:443:443") = ("https://x:443")
      ∧ normalize_url (normalize_url ("https://x:443:443")) = ("https://x")
      ∧ normalize_url (normalize_url ("https://x:443:443"))
          ≠ normalize_url ("https://x:443:443") := by
  refine ⟨by decide, by decide, by decide⟩

/-! ## Deliveries: the durable queue and idempotency ledger

`public.alert_deliveries` becomes a list of rows; the uniqueness constraint
on `(alert_id, article_id, channel)` is realised by the claiming operation
itself (`INSERT ... ON CONFLICT (alert_id, article_id, channel) DO
NOTHING RETURNING id`), which is a no-op when a row with the key exists. -/

inductive DeliveryStatus
  | PENDING
  | SENT
  | FAILED
deriving DecidableEq

/-- The conflict key of `alert_deliveries`. -/
structure DeliveryKey where
  alertId : Nat
  articleId : Nat
  channel : String
deriving DecidableEq

/-- One `alert_deliveries` row (the columns the dispatcher reads/writes). -/
structure Delivery where
  key : DeliveryKey
  userId : Nat
  status : DeliveryStatus
  attemptCount : Nat
  lastAttemptAt : Option Nat
  nextAttemptAt : Option Nat
  deliveredAt : Option Nat
  queuedAt : Nat
  createdAt : Nat
  dedupeKey : String
  dedupeGroup : String
  normalizedUrl : Option String
  priority : String
  error : Option String
deriving DecidableEq

/-- The row the claimer inserts: status PENDING, zero attempts, due now,
queued and created now, no error. -/
def newDelivery (alertId userId articleId : Nat) (channel : String)
    (dedupeKey : String) (normalizedUrl : Option String)
    (priority : String) (now : Nat) : Delivery :=
  { key := ⟨alertId, articleId, channel⟩, userId := userId,
    status := .PENDING, attemptCount := 0, lastAttemptAt := none,
    nextAttemptAt := some now, deliveredAt := none, queuedAt := now,
    createdAt := now, dedupeKey := dedupeKey, dedupeGroup := dedupeKey,
    normalizedUrl := normalizedUrl, priority := priority, error := none }

/-- `INSERT ... ON CONFLICT (alert_id, article_id, channel) DO NOTHING
RETURNING id`: append the row unless one with the same key exists; the
returned flag is whether a row was inserted (`RETURNING` produced a row). -/
def claimDelivery (db : List Delivery) (row : Delivery) : List Delivery × Bool :=
  if db.any (fun d => d.key == row.key) then (db, false)
  else (db ++ [row], true)

/-- The claiming step with the run counters of `run_once`: a successful
insert increments `queued`, a conflict increments `skipped`. -/
def claimWithCounters (db : List Delivery) (queued skipped : Nat)
    (row : Delivery) : List Delivery × Nat × Nat :=
  match claimDelivery db row with
  | (db2, true) => (db2, queued + 1, skipped)
  | (db2, false) => (db2, queued, skipped + 1)

/-- Number of rows carrying a given conflict key. -/
def countKey (db : List Delivery) (k : DeliveryKey) : Nat :=
  (db.filter (fun d => d.key == k)).length

/-- The table invariant: at most one row per (alert, article, channel). -/
def UniqueKeys (db : List Delivery) : Prop :=
  ∀ k, countKey db k ≤ 1

theorem countKey_append_single (db : List Delivery) (row : Delivery) (k : DeliveryKey) :
    countKey (db ++ [row]) k
      = countKey db k + (if row.key == k then 1 else 0) := by
  unfold countKey
  rw [List.filter_append]
  simp only [List.length_append]
  by_cases h : row.key == k
  · simp [h, List.filter]
  · simp [h, List.filter]

theorem claimDelivery_not_found (db : List Delivery) (row : Delivery)
    (h : db.any (fun d => d.key == row.key) = false) :
    countKey db row.key = 0 := by
  unfold countKey
  rw [List.length_eq_zero, List.filter_eq_nil_iff]
  intro d hd
  have := List.any_eq_false.mp h d hd
  simpa using this

/-- C2: claiming preserves the one-row-per-(alert, article, channel)
invariant, and a second claim of the same key — same run or a later one — is
a no-op: the table is unchanged, no new row appears, and the attempt counts
as skipped, not queued. -/
theorem delivery_claim_unique (db : List Delivery) (row row2 : Delivery)
    (hkey : row2.key = row.key) (huniq : UniqueKeys db) :
    UniqueKeys (claimDelivery db row).1
      ∧ (claimDelivery (claimDelivery db row).1 row2).1 = (claimDelivery db row).1
      ∧ (claimDelivery (claimDelivery db row).1 row2).2 = false
      ∧ (∀ q s, claimWithCounters (claimDelivery db row).1 q s row2
          = ((claimDelivery db row).1, q, s + 1)) := by
  have hmem : ∀ db2 : List Delivery, countKey db2 row.key ≥ 1 →
      db2.any (fun d => d.key == row2.key) = true := by
    intro db2 hge
    rw [List.any_eq_true]
    unfold countKey at hge
    rcases List.exists_mem_of_length_pos (Nat.lt_of_lt_of_le Nat.zero_lt_one hge)
      with ⟨d, hd⟩
    rcases List.mem_filter.mp hd with ⟨hdm, hdk⟩
    exact ⟨d, hdm, by rw [hkey]; exact hdk⟩
  unfold claimDelivery
  by_cases hc : db.any (fun d => d.key == row.key) = true
  · -- the first claim already conflicts: table unchanged throughout
    have hc2 : db.any (fun d => d.key == row2.key) = true := by
      rw [List.any_eq_true] at hc ⊢
      rcases hc with ⟨d, hdm, hdk⟩
      exact ⟨d, hdm, by rw [hkey]; exact hdk⟩
    refine ⟨?_, ?_, ?_, ?_⟩ <;>
      simp [hc, hc2, huniq, claimWithCounters, claimDelivery]
  · have hc0 : db.any (fun d => d.key == row.key) = false :=
      Bool.not_eq_true _ ▸ hc
    have hzero := claimDelivery_not_found db row hc0
    have huniq2 : UniqueKeys (db ++ [row]) := by
      intro k
      rw [countKey_append_single]
      by_cases hk : row.key == k
      · have : countKey db k = 0 := by
          rw [show k = row.key from (eq_of_beq hk).symm]; exact hzero
        simp [hk, this]
      · have := huniq k
        simp [hk]
        omega
    have hfound : (db ++ [row]).any (fun d => d.key == row2.key) = true := by
      apply hmem
      rw [countKey_append_single]
      simp
    refine ⟨?_, ?_, ?_, ?_⟩ <;>
      simp only [hc0, Bool.false_eq_true, if_false, hfound, if_true, claimWithCounters,
        claimDelivery]
    · exact huniq2
    · intro q s
      simp [hfound]

theorem delivery_claim_unique_witness :
    UniqueKeys (claimDelivery [] (newDelivery 1 7 2 ("email") ("k") none ("P0") 0)).1
      ∧ (claimDelivery
            (claimDelivery [] (newDelivery 1 7 2 ("email") ("k") none ("P0") 0)).1
            (newDelivery 1 7 2 ("email") ("k") none ("P0") 5)).1
          = (claimDelivery [] (newDelivery 1 7 2 ("email") ("k") none ("P0") 0)).1
      ∧ (claimDelivery
            (claimDelivery [] (newDelivery 1 7 2 ("email") ("k") none ("P0") 0)).1
            (newDelivery 1 7 2 ("email") ("k") none ("P0") 5)).2 = false
      ∧ (∀ q s, claimWithCounters
            (claimDelivery [] (newDelivery 1 7 2 ("email") ("k") none ("P0") 0)).1 q s
            (newDelivery 1 7 2 ("email") ("k") none ("P0") 5)
          = ((claimDelivery [] (newDelivery 1 7 2 ("email") ("k") none ("P0") 0)).1,
             q, s + 1)) :=
  delivery_claim_unique [] (newDelivery 1 7 2 ("email") ("k") none ("P0") 0)
    (newDelivery 1 7 2 ("email") ("k") none ("P0") 5) rfl
    (fun k => by simp [countKey])

/-! ## The Cursor Tracker

`run_once` folds the matcher rows' `ts` values into `max_ts` (skipping
falsy/NULL timestamps), then — only when `max_ts` is set — upserts the
per-alert cursor row with
`DO UPDATE SET last_ts = GREATEST(existing.last_ts, EXCLUDED.last_ts)`. -/

/-- One step of the `max_ts` fold in `run_once`:
`if item_ts and (max_ts is None or item_ts > max_ts): max_ts = item_ts`. -/
def maxTsStep (acc : Option Nat) (itemTs : Option Nat) : Option Nat :=
  match itemTs with
  | none => acc
  | some t =>
    match acc with
    | none => some t
    | some m => if t > m then some t else acc

/-- The observed maximum as-of timestamp over the matcher rows, in scan
order. -/
def observedMax (tss : List (Option Nat)) : Option Nat :=
  tss.foldl maxTsStep none

/-- The cursor upsert: no write when no timestamp was observed; otherwise
insert the maximum, or `GREATEST`-merge it into the existing row. -/
def advanceCursor (prior : Option Nat) (maxTs : Option Nat) : Option Nat :=
  match maxTs with
  | none => prior
  | some m =>
    match prior with
    | none => some m
    | some c => some (max c m)

/-- The per-alert cursor after one run: fold the observations, then upsert. -/
def postRunCursor (prior : Option Nat) (tss : List (Option Nat)) : Option Nat :=
  advanceCursor prior (observedMax tss)

/-- `max` on optional values (absent = bottom); the specification-side
combining function. -/
def optMax (a b : Option Nat) : Option Nat :=
  match a, b with
  | none, b => b
  | some x, none => some x
  | some x, some y => some (max x y)

/-- The specification-side maximum of a timestamp list. -/
def listMax : List Nat → Option Nat
  | [] => none
  | t :: rest =>
    match listMax rest with
    | none => some t
    | some m => some (max t m)

theorem maxTsStep_eq_optMax (acc : Option Nat) (o : Option Nat) :
    maxTsStep acc o = optMax acc o := by
  cases o with
  | none => cases acc <;> rfl
  | some t =>
    cases acc with
    | none => rfl
    | some m =>
      simp only [maxTsStep, optMax]
      by_cases h : t > m
      · rw [if_pos h, Nat.max_eq_right (Nat.le_of_lt h)]
      · rw [if_neg h, Nat.max_eq_left (Nat.le_of_not_lt h)]

theorem optMax_assoc (a b c : Option Nat) :
    optMax (optMax a b) c = optMax a (optMax b c) := by
  cases a <;> cases b <;> cases c <;> simp [optMax, Nat.max_assoc]

theorem optMax_some_listMax (t : Nat) (l : List Nat) :
    optMax (some t) (listMax l) = listMax (t :: l) := by
  cases h : listMax l <;> simp [optMax, listMax, h]

theorem observedMax_foldl (tss : List (Option Nat)) :
    ∀ acc : Option Nat,
      tss.foldl maxTsStep acc = optMax acc (listMax (tss.filterMap id)) := by
  induction tss with
  | nil =>
    intro acc
    cases acc <;> simp [listMax, optMax]
  | cons o rest ih =>
    intro acc
    cases o with
    | none =>
      rw [List.foldl_cons]
      rw [show maxTsStep acc none = acc from rfl]
      simpa using ih acc
    | some t =>
      rw [List.foldl_cons, maxTsStep_eq_optMax, ih (optMax acc (some t)),
        optMax_assoc]
      rw [show (some t :: rest).filterMap (id : Option Nat → Option Nat)
            = t :: rest.filterMap id by simp]
      rw [← optMax_some_listMax]

/-- The fold of `run_once` computes exactly the maximum of the non-NULL
observed timestamps. -/
theorem observedMax_eq_listMax (tss : List (Option Nat)) :
    observedMax tss = listMax (tss.filterMap id) := by
  unfold observedMax
  rw [observedMax_foldl]
  cases listMax (tss.filterMap id) <;> rfl

theorem listMax_perm (l1 l2 : List Nat) (h : l1.Perm l2) :
    listMax l1 = listMax l2 := by
  induction h with
  | nil => rfl
  | cons x _ ih => rw [listMax, listMax, ih]
  | swap x y l =>
    show listMax (y :: x :: l) = listMax (x :: y :: l)
    cases h : listMax l <;>
      simp [listMax, h, Nat.max_left_comm, Nat.max_comm]
  | trans _ _ ih1 ih2 => exact ih1.trans ih2

theorem advanceCursor_eq_optMax (prior m : Option Nat) :
    advanceCursor prior m = optMax prior m := by
  cases prior <;> cases m <;> rfl

/-- C3: for every alert, every prior cursor value and every list of
observed matcher timestamps, the post-run cursor is the maximum of the
prior cursor and the observed (non-NULL) timestamps; it is invariant under
reordering of the scan, and it never decreases. -/
theorem cursor_monotone_merge (prior : Option Nat) (tss tss2 : List (Option Nat))
    (hperm : tss.Perm tss2) :
    postRunCursor prior tss = optMax prior (listMax (tss.filterMap id))
      ∧ postRunCursor prior tss = postRunCursor prior tss2
      ∧ (∀ p, prior = some p →
          ∃ t, postRunCursor prior tss = some t ∧ p ≤ t) := by
  refine ⟨?_, ?_, ?_⟩
  · unfold postRunCursor
    rw [observedMax_eq_listMax, advanceCursor_eq_optMax]
  · unfold postRunCursor
    rw [observedMax_eq_listMax, observedMax_eq_listMax,
      listMax_perm _ _ (hperm.filterMap id)]
  · intro p hp
    unfold postRunCursor
    rw [hp]
    cases h : observedMax tss with
    | none => exact ⟨p, rfl, Nat.le_refl p⟩
    | some m => exact ⟨max p m, rfl, Nat.le_max_left p m⟩

theorem cursor_monotone_merge_witness :
    postRunCursor (some 50) [some 10, none, some 99, some 40]
        = optMax (some 50)
            (listMax (([some 10, none, some 99, some 40] : List (Option Nat)).filterMap id))
      ∧ postRunCursor (some 50) [some 10, none, some 99, some 40]
          = postRunCursor (some 50) [some 99, some 40, some 10, none]
      ∧ (∀ p, (some 50 : Option Nat) = some p →
          ∃ t, postRunCursor (some 50) [some 10, none, some 99, some 40] = some t
            ∧ p ≤ t) :=
  cursor_monotone_merge (some 50) [some 10, none, some 99, some 40]
    [some 99, some 40, some 10, none] (by decide)

/-! ## Retry/backoff, outcome recording, give-up escalation

`mark_delivery_failed` / `mark_delivery_sent` become row updates;
the admin-notify JSON state file becomes an association list from cooldown
key to the epoch second of the last notification (`data.get(key, 0)`). -/

/-- `compute_backoff_seconds(attempt_count, base, max_sec)`. -/
def compute_backoff_seconds (attemptCount base maxSec : Nat) : Nat :=
  min maxSec (base * 2 ^ (attemptCount - 1))

/-- The UPDATE of `mark_delivery_failed`: status FAILED, error truncated to
500 characters, attempt count incremented, last attempt now, next attempt
after the exponential backoff computed from the new attempt count. -/
def markDeliveryFailed (d : Delivery) (error : String)
    (retryBase retryMax now : Nat) : Delivery :=
  { d with
      status := .FAILED
      error := some (pyTake error 500)
      attemptCount := d.attemptCount + 1
      lastAttemptAt := some now
      nextAttemptAt :=
        some (now + compute_backoff_seconds (d.attemptCount + 1) retryBase retryMax) }

/-- The UPDATE of `mark_delivery_sent`: status SENT, error cleared,
delivered now, attempt count incremented, last and next attempt set to now. -/
def markDeliverySent (d : Delivery) (now : Nat) : Delivery :=
  { d with
      status := .SENT
      error := none
      deliveredAt := some now
      attemptCount := d.attemptCount + 1
      lastAttemptAt := some now
      nextAttemptAt := some now }

/-- Membership in the due-set of the dispatcher query:
`status IN (PENDING, FAILED) AND next_attempt_at <= now() AND
attempt_count < max_attempts` (SQL NULL comparison is never true). -/
def isDue (maxAttempts now : Nat) (d : Delivery) : Bool :=
  (d.status == .PENDING || d.status == .FAILED)
    && (match d.nextAttemptAt with
        | some t => t ≤ now
        | none => false)
    && d.attemptCount < maxAttempts

/-- The admin-notify cooldown file: key to epoch second of the last
notification. -/
def AdminState := List (String × Nat)

/-- `data.get(key, 0)`. -/
def stateGet (st : AdminState) (k : String) : Nat :=
  match st.find? (fun e => e.1 == k) with
  | some e => e.2
  | none => 0

/-- `data[key] = now` (replace or add). -/
def stateSet (st : AdminState) (k : String) (v : Nat) : AdminState :=
  match st with
  | [] => [(k, v)]
  | e :: rest => if e.1 == k then (k, v) :: rest else e :: stateSet rest k v

/-- `admin_should_notify_with_cooldown(key, cooldown)`: read the persisted
timestamp, refuse while the cooldown has not elapsed, otherwise persist the
current time and allow.  (`now - last < cooldown` over the integers is
`now < last + cooldown`.)  The state is written back BEFORE any send is
attempted. -/
def admin_should_notify_with_cooldown (st : AdminState) (key : String)
    (cooldown now : Nat) : AdminState × Bool :=
  let last := stateGet st key
  if now < last + cooldown then (st, false)
  else (stateSet st key now, true)

/-- Split a char list around the first occurrence of a multi-character
marker (Python `marker in s` plus `s.split(marker, 1)`); `none` when the
marker does not occur. -/
def splitFirstSub (marker : List Char) : List Char → Option (List Char × List Char)
  | [] => if marker.isEmpty then some ([], []) else none
  | c :: rest =>
    if marker.isPrefixOf (c :: rest) then some ([], (c :: rest).drop marker.length)
    else (splitFirstSub marker rest).map (fun pr => (c :: pr.1, pr.2))

/-- `classify_giveup_error(error)`: empty means unknown; with an embedded
`send_exception=Type:message` the class is the exception type; otherwise the
text before the first colon; empty pieces fall back to `exception`/`error`,
and the result is stripped. -/
def classify_giveup_error (error : String) : String :=
  if error.isEmpty then ("unknown")
  else
    match splitFirstSub ("send_exception=").data error.data with
    | some (_, tail) =>
      let head := match splitFirstChar ':' tail with
        | some (before, _) => before
        | none => tail
      pyStrip (if head.isEmpty then ("exception") else String.mk head)
    | none =>
      let head := match splitFirstChar ':' error.data with
        | some (before, _) => before
        | none => error.data
      pyStrip (if head.isEmpty then ("error") else String.mk head)

/-- The cooldown key of `notify_admin_giveup`:
`giveup:` + stripped channel (defaulting to `unknown`) + `:` + error class. -/
def giveupCooldownKey (channel error : String) : String :=
  let ch := pyStrip (if channel.isEmpty then ("unknown") else channel)
  ("giveup:") ++ ch ++ (":") ++ classify_giveup_error error

/-- `notify_admin_giveup`: a no-op unless admin notification is configured;
otherwise gate on the per-(channel, error-class) cooldown — which persists
its timestamp as part of the check, before any send — and then attempt the
telegram and email operator sends.  The send outcomes (`tgOk`, `emailOk`)
are only printed by the source; they do not influence the persisted state or
whether the escalation counts as attempted. -/
def notify_admin_giveup (enabled : Bool) (st : AdminState)
    (channel error : String) (cooldown now : Nat)
    (tgOk emailOk : Bool) : AdminState × Bool :=
  if enabled then
    match admin_should_notify_with_cooldown st (giveupCooldownKey channel error)
        cooldown now with
    | (st2, true) =>
      -- the two operator sends happen here; tgOk/emailOk are their results
      let _ := tgOk
      let _ := emailOk
      (st2, true)
    | (st2, false) => (st2, false)
  else (st, false)

/-- `mark_delivery_failed` including its give-up tail: update the row, and
when the new attempt count reaches the ceiling, log give-up and attempt the
throttled admin escalation.  Returns the updated row, the updated cooldown
state and whether an escalation fired. -/
def mark_delivery_failed_run (d : Delivery) (error : String)
    (retryBase retryMax maxAttempts giveupCooldown now : Nat)
    (enabled : Bool) (st : AdminState) (tgOk emailOk : Bool) :
    Delivery × AdminState × Bool :=
  let d2 := markDeliveryFailed d error retryBase retryMax now
  if maxAttempts ≤ d.attemptCount + 1 then
    let r := notify_admin_giveup enabled st d.key.channel error giveupCooldown now
      tgOk emailOk
    (d2, r.1, r.2)
  else (d2, st, false)

/-- One give-up occurrence: the channel and error of a Delivery reaching the
attempt ceiling, at a time. -/
structure GiveupEvent where
  channel : String
  error : String
  time : Nat

/-- Escalations fired over a sequence of give-up events, threading the
cooldown state. -/
def countEscalations (enabled : Bool) (cooldown : Nat) :
    AdminState → List GiveupEvent → Nat
  | _, [] => 0
  | st, e :: rest =>
    let r := notify_admin_giveup enabled st e.channel e.error cooldown e.time
      false false
    (if r.2 then 1 else 0) + countEscalations enabled cooldown r.1 rest

theorem stateGet_stateSet_self (st : AdminState) (k : String) (v : Nat) :
    stateGet (stateSet st k v) k = v := by
  induction st with
  | nil => simp [stateSet, stateGet, List.find?]
  | cons e rest ih =>
    unfold stateSet
    by_cases h : e.1 == k
    · simp [h, stateGet, List.find?]
    · simpa [h, stateGet, List.find?] using ih

theorem notify_admin_giveup_fires (st : AdminState) (ch err : String)
    (cooldown now : Nat) (tg em : Bool)
    (h : stateGet st (giveupCooldownKey ch err) + cooldown ≤ now) :
    notify_admin_giveup true st ch err cooldown now tg em
      = (stateSet st (giveupCooldownKey ch err) now, true) := by
  unfold notify_admin_giveup admin_should_notify_with_cooldown
  rw [if_pos rfl]
  rw [if_neg (Nat.not_lt.mpr h)]

theorem notify_admin_giveup_suppressed (st : AdminState) (ch err : String)
    (cooldown now : Nat) (tg em : Bool)
    (h : now < stateGet st (giveupCooldownKey ch err) + cooldown) :
    notify_admin_giveup true st ch err cooldown now tg em = (st, false) := by
  unfold notify_admin_giveup admin_should_notify_with_cooldown
  rw [if_pos rfl]
  rw [if_pos h]

theorem countEscalations_suppressed (cooldown : Nat) (k : String) (t0 : Nat)
    (rest : List GiveupEvent) :
    ∀ st : AdminState, stateGet st k = t0 →
      (∀ e ∈ rest, giveupCooldownKey e.channel e.error = k) →
      (∀ e ∈ rest, e.time < t0 + cooldown) →
      countEscalations true cooldown st rest = 0 := by
  induction rest with
  | nil => intro st _ _ _; rfl
  | cons e tail ih =>
    intro st hget hk hw
    have hek := hk e (List.mem_cons_self e tail)
    have hew := hw e (List.mem_cons_self e tail)
    unfold countEscalations
    rw [notify_admin_giveup_suppressed st e.channel e.error cooldown e.time
      false false (by rw [hek, hget]; exact hew)]
    simpa using ih st hget (fun x hx => hk x (List.mem_cons_of_mem e hx))
      (fun x hx => hw x (List.mem_cons_of_mem e hx))

/-- C4: with an attempt ceiling of 5, a Delivery failing its 5th attempt
reaches attempt count 5 and is excluded from every future due-set — and
since both outcome updates only increase the attempt count, it can never
re-enter one; the 5th failure enters the give-up path, whose escalation is
gated per (channel, error-class) key, and over any sequence of give-up
events sharing that key, the first of which clears the cooldown and the
rest of which fall inside the cooldown window opened by the first, exactly
one operator escalation fires. -/
theorem giveup_excludes_and_escalates_once
    (d : Delivery) (hd : d.attemptCount = 4)
    (error2 : String) (retryBase retryMax now : Nat)
    (st0 : AdminState) (cooldown : Nat)
    (e0 : GiveupEvent) (rest : List GiveupEvent)
    (hkeys : ∀ e ∈ rest,
      giveupCooldownKey e.channel e.error = giveupCooldownKey e0.channel e0.error)
    (hclear : stateGet st0 (giveupCooldownKey e0.channel e0.error) + cooldown
      ≤ e0.time)
    (hwindow : ∀ e ∈ rest, e.time < e0.time + cooldown) :
    (markDeliveryFailed d error2 retryBase retryMax now).attemptCount = 5
      ∧ (∀ now2, isDue 5 now2 (markDeliveryFailed d error2 retryBase retryMax now)
          = false)
      ∧ (∀ d2 : Delivery, 5 ≤ d2.attemptCount → ∀ now2, isDue 5 now2 d2 = false)
      ∧ (∀ (d2 : Delivery) e b m n,
          (markDeliveryFailed d2 e b m n).attemptCount = d2.attemptCount + 1)
      ∧ (∀ (d2 : Delivery) n, (markDeliverySent d2 n).attemptCount
          = d2.attemptCount + 1)
      ∧ (∀ (st : AdminState) (tg em : Bool),
          (mark_delivery_failed_run d error2 retryBase retryMax 5 cooldown now
              true st tg em).2
            = notify_admin_giveup true st d.key.channel error2 cooldown now tg em)
      ∧ countEscalations true cooldown st0 (e0 :: rest) = 1 := by
  have hdue : ∀ d2 : Delivery, 5 ≤ d2.attemptCount → ∀ now2,
      isDue 5 now2 d2 = false := by
    intro d2 h5 now2
    unfold isDue
    have : (d2.attemptCount < 5 : Bool) = false := by
      simp [Nat.not_lt.mpr h5]
    rw [this, Bool.and_false]
  refine ⟨by simp [markDeliveryFailed, hd], ?_, hdue, ?_, ?_, ?_, ?_⟩
  · intro now2
    exact hdue _ (by simp [markDeliveryFailed, hd]) now2
  · intro d2 e b m n
    rfl
  · intro d2 n
    rfl
  · intro st tg em
    unfold mark_delivery_failed_run
    rw [if_pos (by rw [hd])]
  · unfold countEscalations
    rw [notify_admin_giveup_fires st0 e0.channel e0.error cooldown e0.time
      false false hclear]
    show (if true = true then 1 else 0)
        + countEscalations true cooldown
            (stateSet st0 (giveupCooldownKey e0.channel e0.error) e0.time) rest
      = 1
    rw [if_pos rfl, countEscalations_suppressed cooldown
      (giveupCooldownKey e0.channel e0.error) e0.time rest
      (stateSet st0 (giveupCooldownKey e0.channel e0.error) e0.time)
      (stateGet_stateSet_self st0 _ e0.time) hkeys hwindow]

/-- A concrete pending delivery with four prior attempts. -/
def fourFailureDelivery : Delivery :=
  { key := ⟨3, 9, ("email")⟩, userId := 7, status := .FAILED,
    attemptCount := 4, lastAttemptAt := some 90, nextAttemptAt := some 95,
    deliveredAt := none, queuedAt := 10, createdAt := 10,
    dedupeKey := ("k"), dedupeGroup := ("k"), normalizedUrl := none,
    priority := ("P0"), error := some ("boom:earlier") }

theorem giveup_excludes_and_escalates_once_witness :
    (markDeliveryFailed fourFailureDelivery ("boom:x") 60 3600 100).attemptCount = 5
      ∧ (∀ now2, isDue 5 now2
          (markDeliveryFailed fourFailureDelivery ("boom:x") 60 3600 100) = false)
      ∧ (∀ d2 : Delivery, 5 ≤ d2.attemptCount → ∀ now2, isDue 5 now2 d2 = false)
      ∧ (∀ (d2 : Delivery) e b m n,
          (markDeliveryFailed d2 e b m n).attemptCount = d2.attemptCount + 1)
      ∧ (∀ (d2 : Delivery) n, (markDeliverySent d2 n).attemptCount
          = d2.attemptCount + 1)
      ∧ (∀ (st : AdminState) (tg em : Bool),
          (mark_delivery_failed_run fourFailureDelivery ("boom:x") 60 3600 5 3600 100
              true st tg em).2
            = notify_admin_giveup true st fourFailureDelivery.key.channel ("boom:x")
                3600 100 tg em)
      ∧ countEscalations true 3600 []
          [⟨("email"), ("boom:x"), 5000⟩, ⟨("email"), ("boom:y"), 6000⟩] = 1 :=
  giveup_excludes_and_escalates_once fourFailureDelivery rfl ("boom:x") 60 3600 100
    [] 3600 ⟨("email"), ("boom:x"), 5000⟩ [⟨("email"), ("boom:y"), 6000⟩]
    (by intro e he; simp at he; rw [he]; decide)
    (by decide)
    (by intro e he; simp at he; rw [he]; decide)

/-- C9: once a give-up escalation passes its cooldown check, the persisted
cooldown timestamp for its key is refreshed before any operator send is
attempted: the resulting state does not depend on the send outcomes at all,
and any later escalation for the same key within the cooldown window is
refused and leaves the state untouched — a failed escalation still consumes
the cooldown window. -/
theorem failed_escalation_consumes_cooldown
    (st : AdminState) (ch err ch2 err2 : String) (cooldown t t2 : Nat)
    (tg em : Bool)
    (hclear : stateGet st (giveupCooldownKey ch err) + cooldown ≤ t)
    (hkey : giveupCooldownKey ch2 err2 = giveupCooldownKey ch err)
    (hwin : t2 < t + cooldown) :
    (∀ tg1 em1 tg2 em2,
        notify_admin_giveup true st ch err cooldown t tg1 em1
          = notify_admin_giveup true st ch err cooldown t tg2 em2)
      ∧ notify_admin_giveup true st ch err cooldown t tg em
          = (stateSet st (giveupCooldownKey ch err) t, true)
      ∧ (∀ tg2 em2,
          notify_admin_giveup true
              (notify_admin_giveup true st ch err cooldown t tg em).1
              ch2 err2 cooldown t2 tg2 em2
            = ((notify_admin_giveup true st ch err cooldown t tg em).1, false)) := by
  have hfire := notify_admin_giveup_fires st ch err cooldown t tg em hclear
  refine ⟨?_, hfire, ?_⟩
  · intro tg1 em1 tg2 em2
    rw [notify_admin_giveup_fires st ch err cooldown t tg1 em1 hclear,
      notify_admin_giveup_fires st ch err cooldown t tg2 em2 hclear]
  · intro tg2 em2
    rw [hfire]
    exact notify_admin_giveup_suppressed _ ch2 err2 cooldown t2 tg2 em2
      (by rw [hkey, stateGet_stateSet_self]; exact hwin)

theorem failed_escalation_consumes_cooldown_witness :
    (∀ tg1 em1 tg2 em2,
        notify_admin_giveup true [] ("email") ("boom:x") 3600 5000 tg1 em1
          = notify_admin_giveup true [] ("email") ("boom:x") 3600 5000 tg2 em2)
      ∧ notify_admin_giveup true [] ("email") ("boom:x") 3600 5000 false false
          = (stateSet [] (giveupCooldownKey ("email") ("boom:x")) 5000, true)
      ∧ (∀ tg2 em2,
          notify_admin_giveup true
              (notify_admin_giveup true [] ("email") ("boom:x") 3600 5000
                false false).1
              ("email") ("boom:y") 3600 6000 tg2 em2
            = ((notify_admin_giveup true [] ("email") ("boom:x") 3600 5000
                false false).1, false)) :=
  failed_escalation_consumes_cooldown [] ("email") ("boom:x") ("email") ("boom:y")
    3600 5000 6000 false false (by decide) (by decide) (by decide)

/-! ## The email batch dispatch (batch-capable channel) -/

/-- The single outcome of the one provider call made for a batch: success,
or a failure/exception with its diagnostic string (an exception is turned
into a `send_exception=...` string by the source before recording). -/
inductive SendOutcome
  | ok
  | fail (error : String)
deriving DecidableEq

/-- The per-batch tail of the email branch of `run_once`: one send per
batch, then every Delivery of the batch is marked after the one outcome —
all SENT on success, all FAILED with the same error otherwise. -/
def processEmailBatch (outcome : SendOutcome) (retryBase retryMax now : Nat)
    (batch : List Delivery) : List Delivery :=
  match outcome with
  | .ok => batch.map (fun d => markDeliverySent d now)
  | .fail err => batch.map (fun d => markDeliveryFailed d err retryBase retryMax now)

/-- C5: the batch outcome applies uniformly: on provider success every
Delivery of the batch ends SENT with its error cleared; on failure or
exception every Delivery ends FAILED with the same recorded (truncated)
error; no two batch-mates end in different statuses or with different
errors. -/
theorem email_batch_uniform_outcome (outcome : SendOutcome)
    (retryBase retryMax now : Nat) (batch : List Delivery) :
    (∀ d ∈ processEmailBatch outcome retryBase retryMax now batch,
        (outcome = .ok → d.status = .SENT ∧ d.error = none)
          ∧ (∀ e, outcome = .fail e →
              d.status = .FAILED ∧ d.error = some (pyTake e 500)))
      ∧ (∀ d1 ∈ processEmailBatch outcome retryBase retryMax now batch,
          ∀ d2 ∈ processEmailBatch outcome retryBase retryMax now batch,
            d1.status = d2.status ∧ d1.error = d2.error) := by
  have hpt : ∀ d ∈ processEmailBatch outcome retryBase retryMax now batch,
      (outcome = .ok → d.status = .SENT ∧ d.error = none)
        ∧ (∀ e, outcome = .fail e →
            d.status = .FAILED ∧ d.error = some (pyTake e 500)) := by
    intro d hd
    cases outcome with
    | ok =>
      rcases List.mem_map.mp hd with ⟨d0, _, hmk⟩
      exact ⟨fun _ => (by rw [← hmk]; exact ⟨rfl, rfl⟩), fun e he => nomatch he⟩
    | fail err =>
      rcases List.mem_map.mp hd with ⟨d0, _, hmk⟩
      refine ⟨fun h => (nomatch h), fun e he => ?_⟩
      have : err = e := by cases he; rfl
      rw [← hmk, this]
      exact ⟨rfl, rfl⟩
  refine ⟨hpt, ?_⟩
  intro d1 h1 d2 h2
  cases outcome with
  | ok =>
    have p1 := (hpt d1 h1).1 rfl
    have p2 := (hpt d2 h2).1 rfl
    exact ⟨p1.1.trans p2.1.symm, p1.2.trans p2.2.symm⟩
  | fail err =>
    have p1 := (hpt d1 h1).2 err rfl
    have p2 := (hpt d2 h2).2 err rfl
    exact ⟨p1.1.trans p2.1.symm, p1.2.trans p2.2.symm⟩

/-- A second concrete delivery, a batch-mate of `fourFailureDelivery`. -/
def freshDelivery : Delivery :=
  { key := ⟨3, 11, ("email")⟩, userId := 7, status := .PENDING,
    attemptCount := 0, lastAttemptAt := none, nextAttemptAt := some 10,
    deliveredAt := none, queuedAt := 10, createdAt := 10,
    dedupeKey := ("k2"), dedupeGroup := ("k2"), normalizedUrl := none,
    priority := ("P0"), error := none }

theorem email_batch_uniform_outcome_witness :
    (markDeliveryFailed freshDelivery ("boom") 60 3600 100)
        ∈ processEmailBatch (.fail ("boom")) 60 3600 100
            [freshDelivery, fourFailureDelivery]
      ∧ (markDeliveryFailed fourFailureDelivery ("boom") 60 3600 100)
          ∈ processEmailBatch (.fail ("boom")) 60 3600 100
              [freshDelivery, fourFailureDelivery]
      ∧ ((markDeliveryFailed freshDelivery ("boom") 60 3600 100).status = .FAILED
          ∧ (markDeliveryFailed freshDelivery ("boom") 60 3600 100).error
              = some (pyTake ("boom") 500))
      ∧ ((markDeliveryFailed freshDelivery ("boom") 60 3600 100).status
            = (markDeliveryFailed fourFailureDelivery ("boom") 60 3600 100).status
          ∧ (markDeliveryFailed freshDelivery ("boom") 60 3600 100).error
              = (markDeliveryFailed fourFailureDelivery ("boom") 60 3600 100).error) :=
  ⟨by decide, by decide,
    ((email_batch_uniform_outcome (.fail ("boom")) 60 3600 100
        [freshDelivery, fourFailureDelivery]).1
      (markDeliveryFailed freshDelivery ("boom") 60 3600 100) (by decide)).2
      ("boom") rfl,
    (email_batch_uniform_outcome (.fail ("boom")) 60 3600 100
        [freshDelivery, fourFailureDelivery]).2
      (markDeliveryFailed freshDelivery ("boom") 60 3600 100) (by decide)
      (markDeliveryFailed fourFailureDelivery ("boom") 60 3600 100) (by decide)⟩

/-- C10: marking a Delivery SENT changes more than status, delivered
timestamp and cleared error: it also increments the attempt count by one and
sets both the last- and next-attempt timestamps to the current time, so the
attempt count includes the successful attempt; all remaining fields are
untouched. -/
theorem mark_sent_frame_effect (d : Delivery) (now : Nat) :
    (markDeliverySent d now).status = .SENT
      ∧ (markDeliverySent d now).deliveredAt = some now
      ∧ (markDeliverySent d now).error = none
      ∧ (markDeliverySent d now).attemptCount = d.attemptCount + 1
      ∧ (markDeliverySent d now).lastAttemptAt = some now
      ∧ (markDeliverySent d now).nextAttemptAt = some now
      ∧ (markDeliverySent d now).key = d.key
      ∧ (markDeliverySent d now).userId = d.userId
      ∧ (markDeliverySent d now).queuedAt = d.queuedAt
      ∧ (markDeliverySent d now).createdAt = d.createdAt
      ∧ (markDeliverySent d now).dedupeKey = d.dedupeKey
      ∧ (markDeliverySent d now).dedupeGroup = d.dedupeGroup
      ∧ (markDeliverySent d now).normalizedUrl = d.normalizedUrl
      ∧ (markDeliverySent d now).priority = d.priority :=
  ⟨rfl, rfl, rfl, rfl, rfl, rfl, rfl, rfl, rfl, rfl, rfl, rfl, rfl, rfl⟩

end LibyaIntel
